import Mathlib

/-!
# Verification of the identifier allocation / duplicate detection core of `Id_Backend`

Shallow embedding of the employee-ID backend (`server.js` and its SQLite
variant).  JavaScript strings are modelled as `List Char`; each `Char` stands
for one UTF-16 code unit (all strings manipulated by this backend are ASCII,
where code units, code points and `Char`s coincide).  The MongoDB /
SQLite record stores are modelled as `List Employee`; the store reads and
writes used by the handlers are translated to explicit list operations.
`new Date().getFullYear()` is modelled by an explicit `year : Nat` parameter
(the current year at issuance time), and the configured company code is fixed
to its default `"ART"` (`process.env.COMPANY_CODE || "ART"`).
-/

/-- String literal to code-unit list. -/
def str (s : String) : List Char := s.data

/-- Decimal digit character, `Char.ofNat (48 + n)`; used with `n < 10`. -/
def digitChar (n : Nat) : Char := Char.ofNat (48 + n)

/-- Fuel-driven decimal rendering, most significant digit first.
Auxiliary for `natStr`; `fuel` only bounds the recursion depth. -/
def natStrAux : Nat → Nat → List Char
  | 0, _ => []
  | fuel + 1, n =>
    if n < 10 then [digitChar n]
    else natStrAux fuel (n / 10) ++ [digitChar (n % 10)]

/-- JS `String(n)` for a non-negative integer `n`: its decimal digits.
`n + 1` units of fuel always suffice since the argument divides by 10. -/
def natStr (n : Nat) : List Char := natStrAux (n + 1) n

/-- JS `s.padStart(6, "0")`: left-pad with `'0'` up to length 6. -/
def padStart6 (l : List Char) : List Char :=
  List.replicate (6 - l.length) '0' ++ l

/-- JS `s.split("-")`.  `splitDash [] = [[]]` matches `"".split("-") = [""]`. -/
def splitDash : List Char → List (List Char)
  | [] => [[]]
  | c :: cs =>
    if c = '-' then [] :: splitDash cs
    else
      match splitDash cs with
      | [] => [[c]]
      | g :: gs => (c :: g) :: gs

/-- The fourth hyphen-delimited segment of an identifier (`parts[3]`),
`[]` when the split has fewer than four parts (JS `undefined`). -/
def serialSeg (id : List Char) : List Char := (splitDash id).getD 3 []

/-- JS `parseInt(s, 10) || 0` on the digit-leading strings this backend feeds
it: the numeric value of the maximal leading run of decimal digits, `0` when
there is none (`parseInt` returns `NaN` there and `|| 0` maps it to 0).
Whitespace/sign handling of full `parseInt` is irrelevant for the
regex-filtered inputs of `generateEmployeeId` and is not modelled. -/
def jsParseIntOr0 (s : List Char) : Nat :=
  let ds := s.takeWhile Char.isDigit
  ds.foldl (fun a c => a * 10 + (c.toNat - 48)) 0

/-- `parseInt(parts[3] || "0", 10) || 0` from `generateEmployeeId`:
the serial number encoded in an identifier. -/
def parseSerial (id : List Char) : Nat :=
  let p := serialSeg id
  jsParseIntOr0 (if p = [] then str "0" else p)

/--
`checksumDigit` from `server.js`:

    const digits = s.split("").map(ch => String(ch.charCodeAt(0))).join("");
    let sum = 0;
    for (const d of digits) sum += Number(d || 0);
    return String(sum % 9);

`checksumNat` is the value `sum % 9`: write each code unit as decimal text,
concatenate, sum the decimal digits of the concatenation, reduce mod 9.
(`d || 0` is dead code: `d` ranges over the non-empty characters of `digits`.)
-/
def checksumNat (s : List Char) : Nat :=
  (((s.map fun ch => natStr ch.toNat).flatten).map fun d => d.toNat - 48).sum % 9

/-- `checksumDigit` itself: `String(sum % 9)`. -/
def checksumDigit (s : List Char) : List Char := natStr (checksumNat s)

/--
`deptCode` from `server.js`:

    if (!dept) return "GEN";
    return dept.toUpperCase().replace(/[^A-Z]/g, "").slice(0, 3).padEnd(3, "X");

`none` models `null`/`undefined`; `some []` models the falsy empty string.
`Char.toUpper` is the ASCII fragment of JS `toUpperCase`; the characters on
which the two differ are outside `[A-Z]` in this model and are removed by the
filter either way (the few non-ASCII characters whose JS uppercase is a Latin
letter, e.g. U+0131, are not modelled — no claim depends on them). -/
def deptCode (dept : Option (List Char)) : List Char :=
  match dept with
  | none => str "GEN"
  | some d =>
    if d = [] then str "GEN"
    else
      let kept := (d.map Char.toUpper).filter Char.isUpper
      let sliced := kept.take 3
      sliced ++ List.replicate (3 - sliced.length) 'X'

/-- `String(year).slice(-2)`: last two characters (the two-digit year). -/
def yySeg (year : Nat) : List Char :=
  let l := natStr year
  l.drop (l.length - 2)

/-- Employee record, translated from the mongoose schema / SQLite table.
Every field written by the handlers is a JS string (defaulting to `""`), so
all text fields are plain `List Char`.  `_id` models the Mongo `_id`
(resp. SQLite rowid); `created_at` models the creation timestamp used by the
`sort({ created_at: -1 })` lookup.  Photo fields are omitted: they never
participate in sequencing or duplicate detection. -/
structure Employee where
  _id : Nat := 0
  employee_id : List Char := []
  first_name : List Char := []
  last_name : List Char := []
  address : List Char := []
  position : List Char := []
  contact : List Char := []
  dob : List Char := []
  blood_group : List Char := []
  email : List Char := []
  dept : List Char := []
  other : List Char := []
  created_at : Nat := 0
deriving DecidableEq, Repr

/--
The anchored regex `^ART-${yy}-${dcode}-\d{6}-\d$` built in
`generateEmployeeId` (`yy` and `dcode` never contain regex metacharacters or
hyphens, so the regex is equivalent to this segment-wise test: exactly five
hyphen-separated segments, the first three literal, then six digits, then one
digit). -/
def matchesBucket (yy dcode : List Char) (id : List Char) : Bool :=
  match splitDash id with
  | [c, y, d, s, k] =>
    decide (c = str "ART") && decide (y = yy) && decide (d = dcode) &&
    decide (s.length = 6) && s.all Char.isDigit &&
    decide (k.length = 1) && k.all Char.isDigit
  | _ => false

/-- `Employee.findOne({ employee_id: { $regex: regex } }).sort({ created_at: -1 })`:
the matching record with the greatest `created_at` (Mongo leaves the order of
`created_at` ties unspecified; the model keeps the earliest-listed one). -/
def findLatestMatching (yy dcode : List Char) (store : List Employee) :
    Option Employee :=
  store.foldl
    (fun acc r =>
      if matchesBucket yy dcode r.employee_id then
        match acc with
        | none => some r
        | some b => if b.created_at < r.created_at then some r else acc
      else acc)
    none

/-- `let lastSerial = 0; if (last && last.employee_id) lastSerial = parseInt(...) || 0`,
applied to the `employee_id` of the looked-up record (`none` = no match). -/
def lastSerialOfId : Option (List Char) → Nat
  | none => 0
  | some id => if id = [] then 0 else parseSerial id

/-- The serial the sequencer starts from for a bucket: the serial of the most
recently created matching record, `0` when the bucket has none. -/
def lastSerialNat (yy dcode : List Char) (store : List Employee) : Nat :=
  lastSerialOfId ((findLatestMatching yy dcode store).map fun r => r.employee_id)

/-- The tail of `generateEmployeeId` after the store read: compute the next
serial from the looked-up last identifier, render it, join the body and append
the checksum digit. -/
def nextIdFromLast (dept : Option (List Char)) (year : Nat)
    (last : Option (List Char)) : List Char :=
  let yy := yySeg year
  let dcode := deptCode dept
  let nextSerial := lastSerialOfId last + 1
  let serialStr := padStart6 (natStr nextSerial)
  let raw := str "ART" ++ str "-" ++ yy ++ str "-" ++ dcode ++ str "-" ++ serialStr
  raw ++ str "-" ++ checksumDigit raw

/-- `generateEmployeeId({ dept })` from `server.js`, with the current year and
the record store made explicit. -/
def generateEmployeeId (dept : Option (List Char)) (year : Nat)
    (store : List Employee) : List Char :=
  nextIdFromLast dept year
    ((findLatestMatching (yySeg year) (deptCode dept) store).map
      fun r => r.employee_id)

/-- ASCII-lowercase full-string equality: the semantics of the anchored
case-insensitive literal regex `{$regex: ^escapeRegExp(x)$, $options: "i"}`
(Mongo variant) and of `LOWER(a) = LOWER(b)` (SQLite variant, whose `LOWER`
is ASCII-only) on the ASCII data this backend stores. -/
def ciEq (a b : List Char) : Bool :=
  decide (a.map Char.toLower = b.map Char.toLower)

/-- Matching semantics of the Mongo condition `{ field: incoming || null }`
against a stored record's field.  An empty incoming string is turned into
`null` by `|| null`; `{field: null}` matches only documents whose field is
`null` or missing, and every record written by these handlers stores all
text fields as (possibly empty) strings, so within this model the `null`
query matches nothing.  A non-empty incoming string matches by exact
equality. -/
def mongoEq (incoming stored : List Char) : Bool :=
  if incoming = [] then false else decide (stored = incoming)

/-- Incoming allocation request fields (`req.body` after the destructuring
defaults of the POST handler: every missing field becomes `""`). -/
structure EmployeeInput where
  first_name : List Char := []
  last_name : List Char := []
  address : List Char := []
  position : List Char := []
  contact : List Char := []
  dob : List Char := []
  blood_group : List Char := []
  email : List Char := []
  dept : List Char := []
  other : List Char := []
deriving DecidableEq, Repr

/-- The `$or` body of the POST duplicate query in `server.js`:
`{email: email || null}`, `{contact: contact || null}`, or the `$and` of
case-insensitive whole-string name matches with `{dob: dob || null}`. -/
def dupMatch (inp : EmployeeInput) (r : Employee) : Bool :=
  mongoEq inp.email r.email || mongoEq inp.contact r.contact ||
    (ciEq r.first_name inp.first_name && ciEq r.last_name inp.last_name &&
      mongoEq inp.dob r.dob)

/-- `Employee.findOne({$or: [...]})` of the POST handler: first stored record
matching the duplicate condition. -/
def findDuplicate (inp : EmployeeInput) : List Employee → Option Employee
  | [] => none
  | r :: rs => if dupMatch inp r then some r else findDuplicate inp rs

/-- The PUT handler's duplicate query: same `$or` plus `_id: {$ne: existing._id}`. -/
def findDuplicateExcluding (selfId : Nat) (inp : EmployeeInput) :
    List Employee → Option Employee
  | [] => none
  | r :: rs =>
    if r._id ≠ selfId ∧ dupMatch inp r = true then some r
    else findDuplicateExcluding selfId inp rs

/-- Duplicate condition of the SQLite variant (`src/unnamed/part_001`):

    WHERE email = ? OR contact = ?
       OR (LOWER(first_name) = LOWER(?) AND LOWER(last_name) = LOWER(?) AND dob = ?)

Plain SQL equality on the bound strings: no `null` mapping, so an empty
incoming string compares equal to a stored empty string. -/
def sqlDupMatch (email contact first last dob : List Char) (r : Employee) : Bool :=
  decide (r.email = email) || decide (r.contact = contact) ||
    (ciEq r.first_name first && ciEq r.last_name last && decide (r.dob = dob))

/-- `db.get(SELECT * FROM employees WHERE ...)`: first matching row. -/
def sqlFindDuplicate (email contact first last dob : List Char) :
    List Employee → Option Employee
  | [] => none
  | r :: rs =>
    if sqlDupMatch email contact first last dob r then some r
    else sqlFindDuplicate email contact first last dob rs

/-- Responses of the POST handler, as far as the claims need them:
`ok` is the 200 `{success: true, employee_id, qrDataUrl, barcodeDataUrl, ...}`
payload, `clientError` a `res.status(400).json({success: false, error})`, and
`serverError` a `res.status(500)` failure (`{success: false, error: String(err)}`
from the catch block, or the explicit 500 of the upload branch). -/
inductive Response where
  | ok (employee_id : List Char)
  | clientError (msg : List Char)
  | serverError (msg : List Char)
deriving DecidableEq, Repr

/-- `await Employee.findOne(...)` inside `generateEmployeeId`, made fallible:
`.error` models a rejected promise (store lookup failure), `.ok last` a
completed lookup returning the latest matching identifier or nothing.
`generateEmployeeId` installs no handler, so a rejection propagates to its
caller unchanged; the serial fallback to `0` happens only in the `.ok none`
branch. -/
def generateEmployeeIdE (dept : Option (List Char)) (year : Nat)
    (lookup : Except Unit (Option (List Char))) : Except Unit (List Char) :=
  match lookup with
  | .error e => .error e
  | .ok last => .ok (nextIdFromLast dept year last)

/--
The POST `/api/employees` handler of `server.js` (allocation coordinator),
with the sequencer's store lookup passed in explicitly (`seqLookup`; the
in-order pure run passes the actual latest-matching lookup, see
`postEmployee`) and the QR/barcode generation outcome as `proofOk`
(`Promise.all([makeQRDataURL, makeBarcodeDataURL])` is external and can
reject).  Control flow follows the source: required-field validation,
duplicate check, id generation, `doc.save()` (which the unique index on
`employee_id` makes fail on a duplicate identifier; the thrown error reaches
the catch block), then proof generation, whose failure also reaches the catch
block — after the record is already saved, and without removing it.  Photo
handling is omitted: the claims' inputs carry no photo, and that branch
touches neither the store write nor the duplicate/sequencing logic. -/
def postEmployeeE (store : List Employee) (inp : EmployeeInput) (year : Nat)
    (newId now : Nat) (seqLookup : Except Unit (Option (List Char)))
    (proofOk : Bool) : Response × List Employee :=
  if inp.first_name = [] ∨ inp.last_name = [] then
    (.clientError (str "first_name and last_name are required"), store)
  else
    match findDuplicate inp store with
    | some _ => (.clientError (str "Duplicate employee detected"), store)
    | none =>
      match generateEmployeeIdE (some inp.dept) year seqLookup with
      | .error _ => (.serverError (str "store lookup failed"), store)
      | .ok employee_id =>
        if ∃ r ∈ store, r.employee_id = employee_id then
          (.serverError (str "duplicate key"), store)
        else
          let doc : Employee :=
            { _id := newId, employee_id := employee_id,
              first_name := inp.first_name, last_name := inp.last_name,
              address := inp.address, position := inp.position,
              contact := inp.contact, dob := inp.dob,
              blood_group := inp.blood_group, email := inp.email,
              dept := inp.dept, other := inp.other, created_at := now }
          let store' := doc :: store
          if proofOk then (.ok employee_id, store')
          else (.serverError (str "proof generation failed"), store')

/-- The POST handler with a healthy store: the sequencer lookup is the actual
latest-matching read against `store`. -/
def postEmployee (store : List Employee) (inp : EmployeeInput) (year : Nat)
    (newId now : Nat) (proofOk : Bool) : Response × List Employee :=
  postEmployeeE store inp year newId now
    (.ok ((findLatestMatching (yySeg year) (deptCode (some inp.dept)) store).map
      fun r => r.employee_id))
    proofOk

/-- DELETE `/api/employees/:employee_id`: 404 (`none`) when no record has the
identifier, otherwise remove the (unique-indexed, hence first) matching
record.  Serial bookkeeping is untouched: there is none outside the records
themselves. -/
def deleteEmployee (eid : List Char) (store : List Employee) :
    Option (List Employee) :=
  if ∃ r ∈ store, r.employee_id = eid then
    some (store.eraseP fun r => decide (r.employee_id = eid))
  else none

/-- Modelled from the spec: the §6 identifier grammar
`<CompanyCode>-<YY>-<DeptCode3>-<Serial6>-<Checksum1>` with the default
company code `ART`: exactly five hyphen-separated segments — the literal
company code, a two-digit year, three uppercase letters, six decimal digits,
one decimal digit.  This definition follows the spec's words and is compared
against the output of `generateEmployeeId`. -/
def matchesGrammar (id : List Char) : Bool :=
  match splitDash id with
  | [c, y, d, s, k] =>
    decide (c = str "ART") &&
    decide (y.length = 2) && y.all Char.isDigit &&
    decide (d.length = 3) && d.all Char.isUpper &&
    decide (s.length = 6) && s.all Char.isDigit &&
    decide (k.length = 1) && k.all Char.isDigit
  | _ => false

/-! ## Two concurrent allocation requests

The POST handler performs two allocation-relevant store operations, with no
lock held across them: the sequencer read inside `generateEmployeeId`
(`findOne(...).sort({created_at: -1})`) and the insert `doc.save()`, which
the unique index on `employee_id` (`employee_id: {type: String, unique: true}`)
makes fail when the identifier is already present — the thrown duplicate-key
error reaches the catch block and the request fails with a 500.  Two requests
for the same bucket are modelled as interleaved executions of these two
steps against a shared store; a schedule is a list of booleans (`true` steps
request 1, `false` request 2). -/

/-- Progress of one allocation request: not yet read, id computed from the
read snapshot, insert committed, or insert rejected by the unique index. -/
inductive Phase where
  | start : Phase
  | computed (id : List Char) : Phase
  | succeeded (id : List Char) : Phase
  | failed : Phase
deriving DecidableEq, Repr

/-- Shared store plus the two requests' phases. -/
structure AllocState where
  store : List Employee
  p1 : Phase
  p2 : Phase
deriving DecidableEq, Repr

/-- One step of a single request.  `mkRec` builds the document the request
saves around the computed identifier (all its other fields are irrelevant to
sequencing).  A `computed` request whose identifier is already stored fails
(unique-index violation on `save`); otherwise its document is inserted. -/
def reqStep (dept : Option (List Char)) (year : Nat)
    (mkRec : List Char → Employee) (store : List Employee) :
    Phase → Phase × List Employee
  | .start => (.computed (generateEmployeeId dept year store), store)
  | .computed id =>
    if ∃ r ∈ store, r.employee_id = id then (.failed, store)
    else (.succeeded id, mkRec id :: store)
  | .succeeded id => (.succeeded id, store)
  | .failed => (.failed, store)

/-- Scheduler step: advance the request selected by `b`. -/
def schedStep (dept : Option (List Char)) (year : Nat)
    (mk1 mk2 : List Char → Employee) (s : AllocState) (b : Bool) : AllocState :=
  match b with
  | true =>
    { store := (reqStep dept year mk1 s.store s.p1).2,
      p1 := (reqStep dept year mk1 s.store s.p1).1, p2 := s.p2 }
  | false =>
    { store := (reqStep dept year mk2 s.store s.p2).2,
      p1 := s.p1, p2 := (reqStep dept year mk2 s.store s.p2).1 }

/-- Run a whole schedule. -/
def runSched (dept : Option (List Char)) (year : Nat)
    (mk1 mk2 : List Char → Employee) : List Bool → AllocState → AllocState
  | [], s => s
  | b :: rest, s =>
    runSched dept year mk1 mk2 rest (schedStep dept year mk1 mk2 s b)

/-- Invariant of the two-request system: every computed or committed
identifier came from a sequencer read of some store snapshot; a committed
identifier is present in the store; and the two requests never commit the
same identifier. -/
def AllocInv (dept : Option (List Char)) (year : Nat) (s : AllocState) : Prop :=
  (∀ id, (s.p1 = .computed id ∨ s.p1 = .succeeded id) →
    ∃ st, id = generateEmployeeId dept year st) ∧
  (∀ id, (s.p2 = .computed id ∨ s.p2 = .succeeded id) →
    ∃ st, id = generateEmployeeId dept year st) ∧
  (∀ id, s.p1 = .succeeded id → ∃ r ∈ s.store, r.employee_id = id) ∧
  (∀ id, s.p2 = .succeeded id → ∃ r ∈ s.store, r.employee_id = id) ∧
  (∀ a b, s.p1 = .succeeded a → s.p2 = .succeeded b → a ≠ b)

/-! ## Concrete sample data for the closed instances below -/

/-- Allocation request `{first_name: "Ann", last_name: "Lee", department: "Engineering"}`
from the spec's end-to-end scenario. -/
def annLeeInput : EmployeeInput :=
  { first_name := str "Ann", last_name := str "Lee", dept := str "Engineering" }

/-- A stored record with serial 000001 in the `ART-25-GEN` bucket. -/
def recGen1 : Employee :=
  { _id := 1, employee_id := str "ART-25-GEN-000001-4", created_at := 1 }

/-- A stored record with serial 000002 in the `ART-25-GEN` bucket, created
after `recGen1`. -/
def recGen2 : Employee :=
  { _id := 2, employee_id := str "ART-25-GEN-000002-5", created_at := 2 }

/-- A stored record with serial 000041 in the `ART-25-GEN` bucket. -/
def recGen41 : Employee :=
  { _id := 3, employee_id := str "ART-25-GEN-000041-8", created_at := 1 }

/-- A stored record whose bucket serial is already 999999. -/
def recGenMax : Employee :=
  { _id := 4, employee_id := str "ART-25-GEN-999999-0", created_at := 1 }

/-- A stored record with an empty email and otherwise distinctive fields. -/
def recJohn : Employee :=
  { _id := 1, employee_id := str "ART-25-GEN-000001-4",
    first_name := str "John", last_name := str "Smith",
    contact := str "111", dob := str "1990-01-01", email := [] }

/-- A stored record whose own field values are resubmitted in `selfInput`. -/
def selfRecord : Employee :=
  { _id := 7, first_name := str "Ann", last_name := str "Lee",
    email := str "ann@x.com", contact := str "123", dob := str "1990-01-01" }

/-- The update payload resubmitting `selfRecord`'s own values. -/
def selfInput : EmployeeInput :=
  { first_name := str "Ann", last_name := str "Lee",
    email := str "ann@x.com", contact := str "123", dob := str "1990-01-01" }

/-- Document builders for the two simulated concurrent requests. -/
def mkRec1 : List Char → Employee := fun id => { _id := 101, employee_id := id }

/-- Second request's document builder. -/
def mkRec2 : List Char → Employee := fun id => { _id := 102, employee_id := id }

/-! ## Basic lemmas about the string primitives -/

lemma digitChar_isDigit {n : Nat} (h : n < 10) : (digitChar n).isDigit = true := by
  interval_cases n
  all_goals decide

lemma natStrAux_all_digit (f n : Nat) : (natStrAux f n).all Char.isDigit = true := by
  induction f generalizing n with
  | zero => rfl
  | succ f ih =>
    simp only [natStrAux]
    split
    · next h => simp [digitChar_isDigit h]
    · next h =>
      simp only [List.all_append, ih, Bool.true_and, List.all_cons, List.all_nil]
      simp [digitChar_isDigit (Nat.mod_lt n (by norm_num))]

lemma natStr_all_digit (n : Nat) : (natStr n).all Char.isDigit = true :=
  natStrAux_all_digit _ _

lemma natStrAux_ne_nil {f n : Nat} (h : 0 < f) : natStrAux f n ≠ [] := by
  cases f with
  | zero => omega
  | succ f =>
    simp only [natStrAux]
    split
    · simp
    · simp

lemma natStr_ne_nil (n : Nat) : natStr n ≠ [] := natStrAux_ne_nil (by omega)

lemma natStr_of_lt_10 {n : Nat} (h : n < 10) : natStr n = [digitChar n] := by
  simp [natStr, natStrAux, h]

lemma natStrAux_length_le (f n k : Nat) (hk : 1 ≤ k) (hn : n < 10 ^ k) :
    (natStrAux f n).length ≤ k := by
  induction f generalizing n k with
  | zero => simp [natStrAux]
  | succ f ih =>
    simp only [natStrAux]
    split
    · simpa using hk
    · next h =>
      push_neg at h
      have hk2 : 2 ≤ k := by
        by_contra hc
        push_neg at hc
        interval_cases k
        all_goals omega
      have hdiv : n / 10 < 10 ^ (k - 1) := by
        rw [Nat.div_lt_iff_lt_mul (by norm_num)]
        calc n < 10 ^ k := hn
        _ = 10 ^ (k - 1) * 10 := by
              rw [← Nat.pow_succ]
              congr 1
              omega
      have := ih (n / 10) (k - 1) (by omega) hdiv
      simp only [List.length_append, List.length_cons, List.length_nil]
      omega

lemma natStr_length_le {n k : Nat} (hk : 1 ≤ k) (hn : n < 10 ^ k) :
    (natStr n).length ≤ k := natStrAux_length_le _ _ _ hk hn

lemma natStrAux_succ_of_ge (f n : Nat) (h : ¬ n < 10) :
    natStrAux (f + 1) n = natStrAux f (n / 10) ++ [digitChar (n % 10)] := by
  simp only [natStrAux]
  exact if_neg h

lemma natStr_length_ge_two {n : Nat} (h : 10 ≤ n) : 2 ≤ (natStr n).length := by
  have h' : ¬ n < 10 := by omega
  have heq : natStr n = natStrAux n (n / 10) ++ [digitChar (n % 10)] :=
    natStrAux_succ_of_ge n n h'
  have hne : natStrAux n (n / 10) ≠ [] := natStrAux_ne_nil (by omega)
  have h1 : 1 ≤ (natStrAux n (n / 10)).length := List.length_pos.mpr hne
  rw [heq, List.length_append]
  simp only [List.length_cons, List.length_nil]
  omega

lemma noDash_of_all_digit {l : List Char} (h : l.all Char.isDigit = true) :
    '-' ∉ l := by
  intro hm
  have := List.all_eq_true.mp h '-' hm
  simp at this

lemma noDash_of_all_upper {l : List Char} (h : l.all Char.isUpper = true) :
    '-' ∉ l := by
  intro hm
  have := List.all_eq_true.mp h '-' hm
  simp at this

lemma all_digit_drop {l : List Char} (k : Nat) (h : l.all Char.isDigit = true) :
    (l.drop k).all Char.isDigit = true := by
  rw [List.all_eq_true] at h ⊢
  exact fun c hc => h c (List.drop_subset k l hc)

lemma yySeg_all_digit (year : Nat) : (yySeg year).all Char.isDigit = true :=
  all_digit_drop _ (natStr_all_digit year)

lemma yySeg_length {year : Nat} (h : 10 ≤ year) : (yySeg year).length = 2 := by
  have h2 := natStr_length_ge_two h
  simp only [yySeg, List.length_drop]
  omega

lemma padStart6_all_digit {l : List Char} (h : l.all Char.isDigit = true) :
    (padStart6 l).all Char.isDigit = true := by
  simp only [padStart6, List.all_append, h, Bool.and_true]
  rw [List.all_eq_true]
  intro c hc
  rw [List.eq_of_mem_replicate hc]
  decide

lemma padStart6_length {l : List Char} (h : l.length ≤ 6) :
    (padStart6 l).length = 6 := by
  simp only [padStart6, List.length_append, List.length_replicate]
  omega

lemma checksumNat_lt (s : List Char) : checksumNat s < 9 :=
  Nat.mod_lt _ (by norm_num)

lemma checksumDigit_eq (s : List Char) :
    checksumDigit s = [digitChar (checksumNat s)] :=
  natStr_of_lt_10 (lt_trans (checksumNat_lt s) (by norm_num))

lemma checksumDigit_all_digit (s : List Char) :
    (checksumDigit s).all Char.isDigit = true := natStr_all_digit _

lemma checksumDigit_length (s : List Char) : (checksumDigit s).length = 1 := by
  rw [checksumDigit_eq]
  rfl

lemma deptCode_all_upper (dept : Option (List Char)) :
    (deptCode dept).all Char.isUpper = true := by
  match dept with
  | none => decide
  | some d =>
    simp only [deptCode]
    split
    · decide
    · rw [List.all_eq_true]
      intro c hc
      rcases List.mem_append.mp hc with h | h
      · exact List.of_mem_filter (List.take_subset 3 _ h)
      · rw [List.eq_of_mem_replicate h]
        decide

lemma deptCode_length (dept : Option (List Char)) : (deptCode dept).length = 3 := by
  match dept with
  | none => decide
  | some d =>
    simp only [deptCode]
    split
    · decide
    · simp only [List.length_append, List.length_replicate, List.length_take]
      omega

lemma noDash_deptCode (dept : Option (List Char)) : '-' ∉ deptCode dept :=
  noDash_of_all_upper (deptCode_all_upper dept)

/-! ## `splitDash` recovery: splitting a hyphen-joined identifier returns its
segments, provided no segment contains a hyphen (which is how
`generateEmployeeId` builds identifiers). -/

lemma splitDash_no_dash {l : List Char} (h : '-' ∉ l) : splitDash l = [l] := by
  induction l with
  | nil => rfl
  | cons c cs ih =>
    have hc : ¬ c = '-' := fun he => h (he ▸ List.mem_cons_self c cs)
    have hcs : '-' ∉ cs := fun hm => h (List.mem_cons_of_mem c hm)
    simp [splitDash, hc, ih hcs]

lemma splitDash_append_cons {a : List Char} (b : List Char) (h : '-' ∉ a) :
    splitDash (a ++ '-' :: b) = a :: splitDash b := by
  induction a with
  | nil => simp [splitDash]
  | cons c cs ih =>
    have hc : ¬ c = '-' := fun he => h (he ▸ List.mem_cons_self c cs)
    have hcs : '-' ∉ cs := fun hm => h (List.mem_cons_of_mem c hm)
    simp only [List.cons_append, splitDash, hc, if_false]
    rw [List.append_eq, ih hcs]

/-- Splitting a five-segment hyphen join recovers the segments. -/
lemma splitDash_five (a b c d e : List Char) (ha : '-' ∉ a) (hb : '-' ∉ b)
    (hc : '-' ∉ c) (hd : '-' ∉ d) (he : '-' ∉ e) :
    splitDash (a ++ str "-" ++ b ++ str "-" ++ c ++ str "-" ++ d ++ str "-" ++ e) =
      [a, b, c, d, e] := by
  have hj : a ++ str "-" ++ b ++ str "-" ++ c ++ str "-" ++ d ++ str "-" ++ e
      = a ++ '-' :: (b ++ '-' :: (c ++ '-' :: (d ++ '-' :: e))) := by
    have hdash : str "-" = ['-'] := rfl
    simp [hdash, List.append_assoc]
  rw [hj, splitDash_append_cons _ ha, splitDash_append_cons _ hb,
    splitDash_append_cons _ hc, splitDash_append_cons _ hd,
    splitDash_no_dash he]

lemma noDash_ART : '-' ∉ str "ART" := by decide

lemma noDash_yySeg (year : Nat) : '-' ∉ yySeg year :=
  noDash_of_all_digit (yySeg_all_digit year)

lemma noDash_serialStr (n : Nat) : '-' ∉ padStart6 (natStr n) :=
  noDash_of_all_digit (padStart6_all_digit (natStr_all_digit n))

lemma noDash_checksumDigit (s : List Char) : '-' ∉ checksumDigit s :=
  noDash_of_all_digit (checksumDigit_all_digit s)

/-- The generated identifier splits back into its five construction segments. -/
lemma splitDash_nextIdFromLast (dept : Option (List Char)) (year : Nat)
    (last : Option (List Char)) :
    splitDash (nextIdFromLast dept year last) =
      [str "ART", yySeg year, deptCode dept,
        padStart6 (natStr (lastSerialOfId last + 1)),
        checksumDigit (str "ART" ++ str "-" ++ yySeg year ++ str "-" ++
          deptCode dept ++ str "-" ++ padStart6 (natStr (lastSerialOfId last + 1)))] := by
  simp only [nextIdFromLast]
  exact splitDash_five _ _ _ _ _ noDash_ART (noDash_yySeg year)
    (noDash_deptCode dept) (noDash_serialStr _) (noDash_checksumDigit _)

/-- The serial segment of a generated identifier is the zero-padded rendering
of `lastSerial + 1`. -/
lemma serialSeg_nextIdFromLast (dept : Option (List Char)) (year : Nat)
    (last : Option (List Char)) :
    serialSeg (nextIdFromLast dept year last) =
      padStart6 (natStr (lastSerialOfId last + 1)) := by
  rw [serialSeg, splitDash_nextIdFromLast]
  rfl

lemma serialSeg_generateEmployeeId (dept : Option (List Char)) (year : Nat)
    (store : List Employee) :
    serialSeg (generateEmployeeId dept year store) =
      padStart6 (natStr (lastSerialNat (yySeg year) (deptCode dept) store + 1)) := by
  simp only [generateEmployeeId, lastSerialNat]
  exact serialSeg_nextIdFromLast dept year _

/-- Two identifiers generated for the same bucket (same department and year)
with the same serial segment are the same identifier: the serial determines
the body, and the checksum is a function of the body. -/
lemma nextIdFromLast_eq_of_serialSeg_eq (dept : Option (List Char)) (year : Nat)
    (l1 l2 : Option (List Char))
    (h : serialSeg (nextIdFromLast dept year l1) =
      serialSeg (nextIdFromLast dept year l2)) :
    nextIdFromLast dept year l1 = nextIdFromLast dept year l2 := by
  rw [serialSeg_nextIdFromLast, serialSeg_nextIdFromLast] at h
  simp only [nextIdFromLast]
  rw [h]

lemma generateEmployeeId_eq_of_serialSeg_eq (dept : Option (List Char))
    (year : Nat) (s1 s2 : List Employee)
    (h : serialSeg (generateEmployeeId dept year s1) =
      serialSeg (generateEmployeeId dept year s2)) :
    generateEmployeeId dept year s1 = generateEmployeeId dept year s2 := by
  simp only [generateEmployeeId] at h ⊢
  exact nextIdFromLast_eq_of_serialSeg_eq _ _ _ _ h

/-! ## Preservation of `AllocInv` under scheduler steps -/

lemma reqStep_shape (dept : Option (List Char)) (year : Nat)
    (mkR : List Char → Employee) (store : List Employee) (p : Phase)
    (h : ∀ id, (p = .computed id ∨ p = .succeeded id) →
      ∃ st, id = generateEmployeeId dept year st) :
    ∀ id, ((reqStep dept year mkR store p).1 = .computed id ∨
        (reqStep dept year mkR store p).1 = .succeeded id) →
      ∃ st, id = generateEmployeeId dept year st := by
  cases p with
  | start =>
    intro id hid
    rcases hid with hid | hid
    · injection hid with hg
      exact ⟨store, hg.symm⟩
    · exact Phase.noConfusion hid
  | computed c =>
    by_cases hP : ∃ r ∈ store, r.employee_id = c
    · simp only [reqStep, if_pos hP]
      intro id hid
      rcases hid with hid | hid
      · exact Phase.noConfusion hid
      · exact Phase.noConfusion hid
    · simp only [reqStep, if_neg hP]
      intro id hid
      rcases hid with hid | hid
      · exact Phase.noConfusion hid
      · injection hid with hc
        exact h id (Or.inl (by rw [hc]))
  | succeeded c => exact h
  | failed =>
    intro id hid
    rcases hid with hid | hid
    · exact Phase.noConfusion hid
    · exact Phase.noConfusion hid

lemma reqStep_store_mono (dept : Option (List Char)) (year : Nat)
    (mkR : List Char → Employee) (store : List Employee) (p : Phase) :
    ∀ id, (∃ r ∈ store, r.employee_id = id) →
      ∃ r ∈ (reqStep dept year mkR store p).2, r.employee_id = id := by
  intro id hid
  cases p with
  | start => exact hid
  | computed c =>
    by_cases hP : ∃ r ∈ store, r.employee_id = c
    · simp only [reqStep, if_pos hP]
      exact hid
    · simp only [reqStep, if_neg hP]
      obtain ⟨r, hr, hre⟩ := hid
      exact ⟨r, List.mem_cons_of_mem _ hr, hre⟩
  | succeeded c => exact hid
  | failed => exact hid

lemma reqStep_in (dept : Option (List Char)) (year : Nat)
    (mkR : List Char → Employee) (store : List Employee) (p : Phase)
    (hmk : ∀ id, (mkR id).employee_id = id)
    (hin : ∀ id, p = .succeeded id → ∃ r ∈ store, r.employee_id = id) :
    ∀ id, (reqStep dept year mkR store p).1 = .succeeded id →
      ∃ r ∈ (reqStep dept year mkR store p).2, r.employee_id = id := by
  cases p with
  | start => intro id hid; exact Phase.noConfusion hid
  | computed c =>
    by_cases hP : ∃ r ∈ store, r.employee_id = c
    · simp only [reqStep, if_pos hP]
      intro id hid
      exact Phase.noConfusion hid
    · simp only [reqStep, if_neg hP]
      intro id hid
      injection hid with hc
      exact ⟨mkR c, List.mem_cons_self _ _, by rw [hmk c, hc]⟩
  | succeeded c =>
    intro id hid
    exact hin id hid
  | failed => intro id hid; exact Phase.noConfusion hid

/-- Where a `succeeded` phase can come from: either the request had already
committed, or it committed just now — in which case its identifier was absent
from the pre-step store (the unique-index guard). -/
lemma reqStep_succ_source (dept : Option (List Char)) (year : Nat)
    (mkR : List Char → Employee) (store : List Employee) (p : Phase)
    (a : List Char) (h : (reqStep dept year mkR store p).1 = .succeeded a) :
    p = .succeeded a ∨ (p = .computed a ∧ ¬ ∃ r ∈ store, r.employee_id = a) := by
  cases p with
  | start => exact Phase.noConfusion h
  | computed c =>
    by_cases hP : ∃ r ∈ store, r.employee_id = c
    · rw [reqStep, if_pos hP] at h
      exact Phase.noConfusion h
    · rw [reqStep, if_neg hP] at h
      injection h with hc
      exact Or.inr ⟨by rw [hc], by rw [← hc]; exact hP⟩
  | succeeded c => exact Or.inl h
  | failed => exact Phase.noConfusion h

lemma allocInv_init (dept : Option (List Char)) (year : Nat)
    (store0 : List Employee) :
    AllocInv dept year ⟨store0, .start, .start⟩ := by
  refine ⟨?_, ?_, ?_, ?_, ?_⟩
  · intro id hid
    rcases hid with hid | hid
    · exact Phase.noConfusion hid
    · exact Phase.noConfusion hid
  · intro id hid
    rcases hid with hid | hid
    · exact Phase.noConfusion hid
    · exact Phase.noConfusion hid
  · intro id hid
    exact Phase.noConfusion hid
  · intro id hid
    exact Phase.noConfusion hid
  · intro a b hid
    exact Phase.noConfusion hid

lemma allocInv_step (dept : Option (List Char)) (year : Nat)
    (mk1 mk2 : List Char → Employee)
    (h1 : ∀ id, (mk1 id).employee_id = id)
    (h2 : ∀ id, (mk2 id).employee_id = id)
    (s : AllocState) (b : Bool) (hinv : AllocInv dept year s) :
    AllocInv dept year (schedStep dept year mk1 mk2 s b) := by
  obtain ⟨hc1, hc2, hm1, hm2, hne⟩ := hinv
  cases b with
  | true =>
    refine ⟨?_, ?_, ?_, ?_, ?_⟩
    · exact reqStep_shape dept year mk1 s.store s.p1 hc1
    · exact hc2
    · exact reqStep_in dept year mk1 s.store s.p1 h1 hm1
    · exact fun id hid =>
        reqStep_store_mono dept year mk1 s.store s.p1 id (hm2 id hid)
    · intro a c ha hc
      rcases reqStep_succ_source dept year mk1 s.store s.p1 a ha with
        hold | ⟨_, hnot⟩
      · exact hne a c hold hc
      · intro heq
        exact hnot (heq ▸ hm2 c hc)
  | false =>
    refine ⟨?_, ?_, ?_, ?_, ?_⟩
    · exact hc1
    · exact reqStep_shape dept year mk2 s.store s.p2 hc2
    · exact fun id hid =>
        reqStep_store_mono dept year mk2 s.store s.p2 id (hm1 id hid)
    · exact reqStep_in dept year mk2 s.store s.p2 h2 hm2
    · intro a c ha hc
      rcases reqStep_succ_source dept year mk2 s.store s.p2 c hc with
        hold | ⟨_, hnot⟩
      · exact hne a c ha hold
      · intro heq
        exact hnot (heq ▸ hm1 a ha)

lemma allocInv_runSched (dept : Option (List Char)) (year : Nat)
    (mk1 mk2 : List Char → Employee)
    (h1 : ∀ id, (mk1 id).employee_id = id)
    (h2 : ∀ id, (mk2 id).employee_id = id) :
    ∀ sched : List Bool, ∀ s : AllocState, AllocInv dept year s →
      AllocInv dept year (runSched dept year mk1 mk2 sched s) := by
  intro sched
  induction sched with
  | nil => exact fun s h => h
  | cons b rest ih =>
    intro s h
    exact ih _ (allocInv_step dept year mk1 mk2 h1 h2 s b h)

/-! ## Round-trip: parsing the serial out of a freshly generated identifier -/

lemma natStrAux_fuel_irrel : ∀ f g n : Nat, n < f → n < g →
    natStrAux f n = natStrAux g n := by
  intro f
  induction f with
  | zero => intro g n h _; omega
  | succ f ih =>
    intro g n hf hg
    cases g with
    | zero => omega
    | succ g =>
      by_cases h10 : n < 10
      · simp [natStrAux, h10]
      · rw [natStrAux_succ_of_ge f n h10, natStrAux_succ_of_ge g n h10]
        have hdiv : n / 10 < n := Nat.div_lt_self (by omega) (by norm_num)
        rw [ih g (n / 10) (by omega) (by omega)]

lemma natStrAux_eq_natStr {f n : Nat} (h : n < f) : natStrAux f n = natStr n :=
  natStrAux_fuel_irrel f (n + 1) n h (by omega)

lemma digitChar_toNat {n : Nat} (h : n < 10) : (digitChar n).toNat = 48 + n := by
  interval_cases n
  all_goals decide

lemma natStr_foldl : ∀ n acc : Nat,
    (natStr n).foldl (fun a c => a * 10 + (c.toNat - 48)) acc =
      acc * 10 ^ (natStr n).length + n := by
  intro n
  induction n using Nat.strong_induction_on with
  | _ n ih =>
    intro acc
    by_cases h10 : n < 10
    · rw [natStr_of_lt_10 h10]
      simp only [List.foldl_cons, List.foldl_nil, List.length_cons,
        List.length_nil, pow_one]
      rw [digitChar_toNat h10]
      omega
    · push_neg at h10
      have hsucc : natStr n = natStrAux n (n / 10) ++ [digitChar (n % 10)] :=
        natStrAux_succ_of_ge n n (by omega)
      have hdivlt : n / 10 < n := Nat.div_lt_self (by omega) (by norm_num)
      have heq : natStrAux n (n / 10) = natStr (n / 10) := natStrAux_eq_natStr hdivlt
      rw [hsucc, heq, List.foldl_append]
      simp only [List.foldl_cons, List.foldl_nil, List.length_append,
        List.length_cons, List.length_nil]
      rw [ih (n / 10) hdivlt acc]
      rw [digitChar_toNat (Nat.mod_lt n (by norm_num))]
      rw [pow_succ, ← mul_assoc]
      omega

lemma foldl_replicate_zero : ∀ k : Nat,
    (List.replicate k '0').foldl (fun a c => a * 10 + (c.toNat - 48)) 0 = 0 := by
  intro k
  induction k with
  | zero => rfl
  | succ k ih =>
    rw [List.replicate_succ, List.foldl_cons]
    have h0 : (0 * 10 + ('0'.toNat - 48)) = 0 := by decide
    rw [h0]
    exact ih

lemma takeWhile_eq_self_of_all {p : Char → Bool} {l : List Char}
    (h : l.all p = true) : l.takeWhile p = l := by
  induction l with
  | nil => rfl
  | cons c cs ih =>
    rw [List.all_cons, Bool.and_eq_true] at h
    simp [List.takeWhile_cons, h.1, ih h.2]

lemma jsParseIntOr0_padStart6_natStr (n : Nat) :
    jsParseIntOr0 (padStart6 (natStr n)) = n := by
  simp only [jsParseIntOr0]
  rw [takeWhile_eq_self_of_all (padStart6_all_digit (natStr_all_digit n))]
  simp only [padStart6]
  rw [List.foldl_append, foldl_replicate_zero, natStr_foldl]
  simp

/-- The code's own parse (`parseInt(parts[3], 10)`) of a freshly generated
identifier recovers exactly `lastSerial + 1`. -/
lemma parseSerial_generateEmployeeId (dept : Option (List Char)) (year : Nat)
    (store : List Employee) :
    parseSerial (generateEmployeeId dept year store) =
      lastSerialNat (yySeg year) (deptCode dept) store + 1 := by
  have hs := serialSeg_generateEmployeeId dept year store
  simp only [parseSerial, hs]
  have hne : padStart6 (natStr (lastSerialNat (yySeg year) (deptCode dept) store + 1)) ≠ [] := by
    simp only [padStart6]
    intro h
    exact natStr_ne_nil _ (List.append_eq_nil.mp h).2
  rw [if_neg hne, jsParseIntOr0_padStart6_natStr]

lemma splitDash_generateEmployeeId (dept : Option (List Char)) (year : Nat)
    (store : List Employee) :
    splitDash (generateEmployeeId dept year store) =
      [str "ART", yySeg year, deptCode dept,
        padStart6 (natStr (lastSerialNat (yySeg year) (deptCode dept) store + 1)),
        checksumDigit (str "ART" ++ str "-" ++ yySeg year ++ str "-" ++
          deptCode dept ++ str "-" ++
          padStart6 (natStr (lastSerialNat (yySeg year) (deptCode dept) store + 1)))] := by
  simp only [generateEmployeeId, lastSerialNat]
  exact splitDash_nextIdFromLast dept year _

lemma take_body_append (raw k : List Char) (hk : k.length = 1) :
    (raw ++ str "-" ++ k).take ((raw ++ str "-" ++ k).length - 2) = raw := by
  have h1 : (str "-").length = 1 := rfl
  have hlen : (raw ++ str "-" ++ k).length = raw.length + 2 := by
    simp [List.length_append, h1, hk]
  rw [hlen]
  have h2 : raw.length + 2 - 2 = raw.length := by omega
  rw [h2, List.append_assoc]
  exact List.take_left _ _

/-- Every generated identifier is its own body, a hyphen, and the checksum of
that body — where the body is the identifier with its last two characters
removed. -/
lemma generateEmployeeId_checksum_split (dept : Option (List Char)) (year : Nat)
    (store : List Employee) :
    generateEmployeeId dept year store =
      (generateEmployeeId dept year store).take
        ((generateEmployeeId dept year store).length - 2) ++ str "-" ++
      checksumDigit ((generateEmployeeId dept year store).take
        ((generateEmployeeId dept year store).length - 2)) := by
  have hgen : generateEmployeeId dept year store =
      (str "ART" ++ str "-" ++ yySeg year ++ str "-" ++ deptCode dept ++ str "-" ++
        padStart6 (natStr (lastSerialNat (yySeg year) (deptCode dept) store + 1))) ++
      str "-" ++
      checksumDigit (str "ART" ++ str "-" ++ yySeg year ++ str "-" ++ deptCode dept ++
        str "-" ++
        padStart6 (natStr (lastSerialNat (yySeg year) (deptCode dept) store + 1))) := rfl
  rw [hgen, take_body_append _ _ (checksumDigit_length _)]

lemma matchesGrammar_generateEmployeeId (dept : Option (List Char)) (year : Nat)
    (store : List Employee) (hyear : 10 ≤ year)
    (hser : lastSerialNat (yySeg year) (deptCode dept) store < 999999) :
    matchesGrammar (generateEmployeeId dept year store) = true := by
  have hsplit := splitDash_generateEmployeeId dept year store
  have hpow : (10 : Nat) ^ 6 = 1000000 := by norm_num
  have hlt : lastSerialNat (yySeg year) (deptCode dept) store + 1 < 10 ^ 6 := by omega
  have hs6 : (padStart6 (natStr (lastSerialNat (yySeg year) (deptCode dept) store + 1))).length = 6 :=
    padStart6_length (natStr_length_le (by norm_num) hlt)
  have hsd : (padStart6 (natStr (lastSerialNat (yySeg year) (deptCode dept) store + 1))).all Char.isDigit = true :=
    padStart6_all_digit (natStr_all_digit _)
  simp only [matchesGrammar, hsplit, Bool.and_eq_true, decide_eq_true_eq]
  exact ⟨⟨⟨⟨⟨⟨⟨⟨trivial, yySeg_length hyear⟩, yySeg_all_digit year⟩,
    deptCode_length dept⟩, deptCode_all_upper dept⟩, hs6⟩, hsd⟩,
    checksumDigit_length _⟩, checksumDigit_all_digit _⟩

lemma generateEmployeeIdE_ok (dept : Option (List Char)) (year : Nat)
    (store : List Employee) :
    generateEmployeeIdE dept year
      (.ok ((findLatestMatching (yySeg year) (deptCode dept) store).map
        fun r => r.employee_id)) = .ok (generateEmployeeId dept year store) := rfl

/-! ## The claims -/

/-- C1: for every pair of allocation requests executing concurrently against
the same bucket (same company code, two-digit year, department code), it is
never the case that both requests succeed with the same 6-digit serial number
in their assigned identifiers.  Modelled over every interleaving of the two
requests' sequencer reads and unique-index-guarded inserts, from every
initial store: if both commit, their identifiers — and in particular their
serial segments — differ. -/
theorem concurrent_allocations_never_share_serial
    (dept : Option (List Char)) (year : Nat) (mk1 mk2 : List Char → Employee)
    (sched : List Bool) (store0 : List Employee) (a b : List Char)
    (h1 : ∀ id, (mk1 id).employee_id = id)
    (h2 : ∀ id, (mk2 id).employee_id = id)
    (ha : (runSched dept year mk1 mk2 sched ⟨store0, .start, .start⟩).p1 = .succeeded a)
    (hb : (runSched dept year mk1 mk2 sched ⟨store0, .start, .start⟩).p2 = .succeeded b) :
    a ≠ b ∧ serialSeg a ≠ serialSeg b := by
  obtain ⟨hc1, hc2, _, _, hne⟩ :=
    allocInv_runSched dept year mk1 mk2 h1 h2 sched _ (allocInv_init dept year store0)
  obtain ⟨st1, rfl⟩ := hc1 a (Or.inr ha)
  obtain ⟨st2, rfl⟩ := hc2 b (Or.inr hb)
  refine ⟨hne _ _ ha hb, fun hser => hne _ _ ha hb ?_⟩
  exact generateEmployeeId_eq_of_serialSeg_eq dept year st1 st2 hser

/-- Witness for C1: the fully sequential schedule of two requests on an empty
store commits serials `000001` and `000002`, which differ. -/
theorem concurrent_allocations_never_share_serial_witness :
    serialSeg (str "ART-25-GEN-000001-4") ≠ serialSeg (str "ART-25-GEN-000002-5") :=
  (concurrent_allocations_never_share_serial none 2025 mkRec1 mkRec2
    [true, true, false, false] [] (str "ART-25-GEN-000001-4")
    (str "ART-25-GEN-000002-5") (fun _ => rfl) (fun _ => rfl)
    (by decide) (by decide)).2

/-- C2: the claim requires that an empty incoming email (or contact, or an
incomplete name-plus-dob triple) never matches a stored record's empty field.
The SQLite variant's duplicate query (`WHERE email = ? OR ...`) flags a
record with a completely different name, contact and dob as a duplicate
purely because both emails are the empty string; with any non-matching
non-empty email the same record does not match.  This evaluates the code at
the failing input (the spec itself calls this behaviour a latent bug, §9). -/
theorem empty_email_flags_false_positive_duplicate :
    sqlFindDuplicate [] (str "222") (str "Alice") (str "Brown") [] [recJohn] =
      some recJohn ∧
    sqlDupMatch (str "x@y.z") (str "222") (str "Alice") (str "Brown") []
      recJohn = false := by
  decide

/-- C3 counterexample: deleting the most recently created record of a bucket
(serial `000002`) and re-allocating yields the deleted record's serial — in
fact the identical identifier — contradicting "the new allocation never
receives the serial number of the deleted record". -/
theorem delete_latest_then_allocate_reuses_serial :
    deleteEmployee (str "ART-25-GEN-000002-5") [recGen1, recGen2] =
      some [recGen1] ∧
    generateEmployeeId none 2025 [recGen1] = str "ART-25-GEN-000002-5" ∧
    serialSeg (generateEmployeeId none 2025 [recGen1]) =
      serialSeg (str "ART-25-GEN-000002-5") := by
  decide

/-- C3 (amended): the sequencer keeps no memory of deleted records — after a
delete, the next allocation's serial is exactly one more than the serial of
the most recently created remaining matching record; consequently the deleted
record's serial is not reused as long as it does not exceed the remaining
bucket's last serial (in particular when the deleted record was not the
bucket's most recently created), while deleting the most recently created
record does reuse its serial. -/
theorem allocation_after_delete_ignores_deleted_record
    (dept : Option (List Char)) (year : Nat) (store store' : List Employee)
    (eid : List Char) (_hdel : deleteEmployee eid store = some store')
    (hle : parseSerial eid ≤ lastSerialNat (yySeg year) (deptCode dept) store') :
    parseSerial (generateEmployeeId dept year store') =
      lastSerialNat (yySeg year) (deptCode dept) store' + 1 ∧
    parseSerial (generateEmployeeId dept year store') ≠ parseSerial eid := by
  have h := parseSerial_generateEmployeeId dept year store'
  exact ⟨h, by omega⟩

/-- Witness for the amended C3: deleting the non-latest record `000001` from
a two-record bucket; the next allocation gets `000003`, not `000001`. -/
theorem allocation_after_delete_ignores_deleted_record_witness :
    parseSerial (generateEmployeeId none 2025 [recGen2]) ≠
      parseSerial (str "ART-25-GEN-000001-4") :=
  (allocation_after_delete_ignores_deleted_record none 2025 [recGen1, recGen2]
    [recGen2] (str "ART-25-GEN-000001-4") (by decide) (by decide)).2

/-- C4: for every string `s`, `checksumDigit s` is a single decimal digit
character between `"0"` and `"8"` (the digit `sum % 9` where `sum` adds
every decimal digit of the concatenated decimal renderings of the code
units), and the function is deterministic: equal inputs give equal outputs. -/
theorem checksumDigit_single_digit_zero_to_eight :
    ∀ s : List Char, ∃ c : Char,
      checksumDigit s = [c] ∧ '0' ≤ c ∧ c ≤ '8' ∧
      ∀ t : List Char, t = s → checksumDigit t = checksumDigit s := by
  intro s
  have h := checksumNat_lt s
  refine ⟨digitChar (checksumNat s), checksumDigit_eq s, ?_, ?_,
    fun t ht => by rw [ht]⟩
  · revert h
    generalize checksumNat s = m
    intro h
    interval_cases m
    all_goals decide
  · revert h
    generalize checksumNat s = m
    intro h
    interval_cases m
    all_goals decide

/-- C5: `deptCode` is total and always returns exactly 3 uppercase Latin
letters; empty or null input yields `"GEN"`; `deptCode(null) = "GEN"`,
`deptCode("engineering!") = "ENG"`, `deptCode("ab") = "ABX"`. -/
theorem deptCode_total_three_uppercase :
    (∀ dept : Option (List Char),
      (deptCode dept).length = 3 ∧ (deptCode dept).all Char.isUpper = true) ∧
    deptCode none = str "GEN" ∧ deptCode (some []) = str "GEN" ∧
    deptCode (some (str "engineering!")) = str "ENG" ∧
    deptCode (some (str "ab")) = str "ABX" :=
  ⟨fun dept => ⟨deptCode_length dept, deptCode_all_upper dept⟩,
    by decide, by decide, by decide, by decide⟩

/-- C6: for every bucket, the next serial is the serial of the most recently
created matching record plus 1, rendered with `padStart(6, "0")`; with no
matching record the last serial is 0, so an empty bucket allocates serial
`"000001"`, and a bucket whose latest record holds serial `000041` allocates
`"000042"`. -/
theorem next_serial_is_last_plus_one_padded :
    (∀ (dept : Option (List Char)) (year : Nat) (store : List Employee),
      serialSeg (generateEmployeeId dept year store) =
        padStart6 (natStr (lastSerialNat (yySeg year) (deptCode dept) store + 1))) ∧
    lastSerialNat (yySeg 2025) (deptCode none) [] = 0 ∧
    serialSeg (generateEmployeeId none 2025 []) = str "000001" ∧
    serialSeg (generateEmployeeId none 2025 [recGen41]) = str "000042" :=
  ⟨serialSeg_generateEmployeeId, by decide, by decide, by decide⟩

/-- C7 counterexample: when the bucket's most recent record already carries
serial 999999, the generated identifier's serial segment is the 7-digit
`1000000`, so the identifier does not match the §6 grammar — the claim
"every identifier matches the grammar exactly" fails at this store. -/
theorem identifier_grammar_violated_at_serial_overflow :
    matchesGrammar (generateEmployeeId none 2025 [recGenMax]) = false := by
  decide

/-- C7 (amended): as long as the bucket's last serial is below 999999 (serial
overflow is the spec's acknowledged open edge case) — and the issuance year
has at least two digits, as `getFullYear()` always does — every generated
identifier matches the §6 grammar `ART-YY-DDD-SSSSSS-C` exactly, and it
always consists of its body (the identifier minus the final two characters)
followed by a hyphen and `checksumDigit` of that body. -/
theorem identifier_grammar_and_checksum_below_overflow
    (dept : Option (List Char)) (year : Nat) (store : List Employee)
    (hyear : 10 ≤ year)
    (hser : lastSerialNat (yySeg year) (deptCode dept) store < 999999) :
    matchesGrammar (generateEmployeeId dept year store) = true ∧
    generateEmployeeId dept year store =
      (generateEmployeeId dept year store).take
        ((generateEmployeeId dept year store).length - 2) ++ str "-" ++
      checksumDigit ((generateEmployeeId dept year store).take
        ((generateEmployeeId dept year store).length - 2)) :=
  ⟨matchesGrammar_generateEmployeeId dept year store hyear hser,
    generateEmployeeId_checksum_split dept year store⟩

/-- Witness for the amended C7 at an empty store in year 2025. -/
theorem identifier_grammar_and_checksum_below_overflow_witness :
    matchesGrammar (generateEmployeeId none 2025 []) = true :=
  (identifier_grammar_and_checksum_below_overflow none 2025 []
    (by norm_num) (by decide)).1

/-- C8 counterexample: when QR/barcode generation fails after a successful
save, the POST handler's catch block answers with the generic 500 failure
(`{success: false, error}`) — a plain failure response, not a partial-success
one — while the record stays persisted.  This refutes "the caller receives a
partial-success response, not a plain failure response". -/
theorem proof_failure_returns_plain_500_with_record_kept :
    (postEmployee [] annLeeInput 2025 1 5 false).1 =
      Response.serverError (str "proof generation failed") ∧
    ∃ r ∈ (postEmployee [] annLeeInput 2025 1 5 false).2,
      r.employee_id = str "ART-25-ENG-000001-4" := by
  decide

/-- C8 (amended): when proof generation fails after the save, the persisted
record is never rolled back — the store is exactly the new document on top of
the old store — but the caller receives the generic 500 failure response
rather than a partial-success response. -/
theorem record_kept_but_plain_failure_on_proof_error
    (store : List Employee) (inp : EmployeeInput) (year newId now : Nat)
    (hval : ¬(inp.first_name = [] ∨ inp.last_name = []))
    (hdup : findDuplicate inp store = none)
    (hfresh : ¬ ∃ r ∈ store,
      r.employee_id = generateEmployeeId (some inp.dept) year store) :
    (postEmployee store inp year newId now false).1 =
      Response.serverError (str "proof generation failed") ∧
    (postEmployee store inp year newId now false).2 =
      { _id := newId, employee_id := generateEmployeeId (some inp.dept) year store,
        first_name := inp.first_name, last_name := inp.last_name,
        address := inp.address, position := inp.position,
        contact := inp.contact, dob := inp.dob,
        blood_group := inp.blood_group, email := inp.email,
        dept := inp.dept, other := inp.other, created_at := now } :: store := by
  simp only [postEmployee, postEmployeeE, generateEmployeeIdE_ok, hdup]
  rw [if_neg hval, if_neg hfresh]
  exact ⟨rfl, rfl⟩

/-- Witness for the amended C8 at the spec's end-to-end input. -/
theorem record_kept_but_plain_failure_on_proof_error_witness :
    (postEmployee [] annLeeInput 2025 1 5 false).1 =
      Response.serverError (str "proof generation failed") :=
  (record_kept_but_plain_failure_on_proof_error [] annLeeInput 2025 1 5
    (by decide) (by decide) (by decide)).1

/-- C9: a failed sequencer store lookup propagates out of
`generateEmployeeId` unchanged (no identifier is produced), the POST
coordinator then answers with a 500 failure and writes no record (the store
is returned untouched), and the fallback to serial 1 happens only on a
lookup that confirmed the absence of any prior matching record. -/
theorem store_lookup_error_propagates_no_record
    (dept : Option (List Char)) (year : Nat) (store : List Employee)
    (inp : EmployeeInput) (newId now : Nat) (proofOk : Bool)
    (hval : ¬(inp.first_name = [] ∨ inp.last_name = []))
    (hdup : findDuplicate inp store = none) :
    generateEmployeeIdE dept year (.error ()) = .error () ∧
    postEmployeeE store inp year newId now (.error ()) proofOk =
      (Response.serverError (str "store lookup failed"), store) ∧
    (∀ lookup : Except Unit (Option (List Char)), lookup = .ok none →
      generateEmployeeIdE dept year lookup = .ok (nextIdFromLast dept year none) ∧
      serialSeg (nextIdFromLast dept year none) = str "000001") := by
  refine ⟨rfl, ?_, ?_⟩
  · simp only [postEmployeeE, hdup, generateEmployeeIdE]
    rw [if_neg hval]
  · intro lookup hl
    subst hl
    refine ⟨rfl, ?_⟩
    rw [serialSeg_nextIdFromLast]
    decide

/-- Witness for C9 at the spec's end-to-end input with a failing lookup. -/
theorem store_lookup_error_propagates_no_record_witness :
    postEmployeeE [] annLeeInput 2025 1 5 (.error ()) true =
      (Response.serverError (str "store lookup failed"), []) :=
  (store_lookup_error_propagates_no_record none 2025 [] annLeeInput 1 5 true
    (by decide) (by decide)).2.1

/-- C10: the PUT duplicate check (`_id: {$ne: existing._id}` plus the `$or`)
can never report the record under update as its own duplicate: any record it
returns has a different `_id`, and if no other record matches the submitted
fields — in particular when a record's own unchanged email, contact and
name-plus-dob are resubmitted and nothing else matches them — the update is
not rejected. -/
theorem update_dup_check_excludes_self
    (selfId : Nat) (inp : EmployeeInput) (store : List Employee) :
    (∀ r, findDuplicateExcluding selfId inp store = some r → r._id ≠ selfId) ∧
    ((∀ r ∈ store, r._id ≠ selfId → dupMatch inp r = false) →
      findDuplicateExcluding selfId inp store = none) := by
  induction store with
  | nil => exact ⟨fun r h => Option.noConfusion h, fun _ => rfl⟩
  | cons x xs ih =>
    constructor
    · intro r h
      by_cases hx : x._id ≠ selfId ∧ dupMatch inp x = true
      · rw [findDuplicateExcluding, if_pos hx] at h
        injection h with h'
        exact h' ▸ hx.1
      · rw [findDuplicateExcluding, if_neg hx] at h
        exact ih.1 r h
    · intro hall
      have hx : ¬(x._id ≠ selfId ∧ dupMatch inp x = true) := by
        rintro ⟨hne, hm⟩
        have hfalse := hall x (List.mem_cons_self x xs) hne
        rw [hm] at hfalse
        exact Bool.noConfusion hfalse
      rw [findDuplicateExcluding, if_neg hx]
      exact ih.2 fun r hr hne => hall r (List.mem_cons_of_mem _ hr) hne

/-- Witness for C10: resubmitting `selfRecord`'s own values in a store where
it is the only record finds no duplicate. -/
theorem update_dup_check_excludes_self_witness :
    findDuplicateExcluding 7 selfInput [selfRecord] = none :=
  (update_dup_check_excludes_self 7 selfInput [selfRecord]).2 (by decide)
